import Mathlib

/-!
Shallow embedding of the scheduling core of `src/app.py`
(Appointed Time Printing job-planning system).

Modelling conventions:
- Instants are rational numbers of hours since a fixed reference instant
  taken to be a Monday 00:00, so that `t / 24` counts whole days and
  `(⌊t / 24⌋ % 7)` is the weekday index (0 = Monday, ..., 5 = Saturday,
  6 = Sunday).  Python `datetime` arithmetic (`t + timedelta(hours=d)`)
  becomes rational addition `t + d`.
- Python numeric values are embedded exactly: `int` becomes `ℤ`, and the
  float arithmetic of the helpers becomes exact `ℚ` arithmetic with the
  same formulas (`int(x)` is truncation toward zero, `math.ceil` is `⌈·⌉`).
- `raise ValueError(msg)` becomes an `Except.error msg` result.
- `st.warning`/`st.error` calls are user-interface output that does not
  affect the returned value; they are not part of the returned data.
-/

namespace AppointedTime

/-- `SETUP_HOURS = 2.0` — fixed setup time for all machines (src/app.py line 35). -/
def SETUP_HOURS : ℚ := 2

/-- The machine table `MACHINE_DATA` of src/app.py lines 17-33: machine
name paired with its throughput rate in impressions per hour. -/
def MACHINE_DATA : List (String × ℚ) :=
  [("SM102-CX FOUR COLOUR", 8000),
   ("SM102-P FIVE COLOUR", 7500),
   ("SM 52", 7000),
   ("GTO 52 SEMI-AUTO-2 COLOUR", 4500),
   ("GTO 52 MANUAL-2 COLOUR", 4000),
   ("FOLDING UNIT CONTINUOUS FOLD", 8000),
   ("MBO-B30E SINGLE FOLD", 16000),
   ("POLAR MACHINE FOR BOOKS", 2000),
   ("POLAR MACHINE FOR SHEETS", 50000),
   ("3 WAY TRIMMER", 5000),
   ("PERFECT BINDING", 500),
   ("LAMINATION UNIT", 2500),
   ("PEDDLER SADDLE STITCH", 1000),
   ("DIE CUTTER", 3000),
   ("FOLDER GLUER", 12000)]

/-- Python `int(x)`: truncation of a real value toward zero. -/
def ratTrunc (x : ℚ) : ℤ := if x < 0 then ⌈x⌉ else ⌊x⌋

/-- `calculate_impressions` (src/app.py lines 70-79): validates the inputs,
then computes `int(ceil(finished_qty / ups) * (1 + overs_pct / 100))`.
`raise ValueError` is embedded as `Except.error`. -/
def calculate_impressions (finished_qty ups : ℤ) (overs_pct : ℚ) : Except String ℤ :=
  if ups ≤ 0 ∨ finished_qty ≤ 0 then
    Except.error "Quantity and Ups must be positive numbers"
  else if overs_pct < 0 then
    Except.error "Overs % cannot be negative"
  else
    let sheets : ℤ := ⌈(finished_qty : ℚ) / (ups : ℚ)⌉
    let impressions : ℚ := (sheets : ℚ) * (1 + overs_pct / 100)
    Except.ok (ratTrunc impressions)

/-- `calculate_processing_time` (src/app.py lines 81-87): `0` for a machine
not in `MACHINE_DATA`, otherwise setup time plus run time. -/
def calculate_processing_time (machine : String) (impressions : ℚ) : ℚ :=
  match MACHINE_DATA.lookup machine with
  | none => 0
  | some rate => SETUP_HOURS + impressions / rate

/-- One entry of the `schedule` list built by `calculate_job_schedule`
(src/app.py lines 102-110).  The Python dict key `end` is a Lean keyword
and is embedded as the field `endTime`. -/
structure ScheduleStep where
  process : String
  start : ℚ
  endTime : ℚ
  duration : ℚ
  impressions : ℚ
  run_time : ℚ
  setup_time : ℚ
  deriving DecidableEq, Repr

/-- `calculate_job_schedule` (src/app.py lines 89-114) with the start
instant supplied explicitly (the Python default `start_time=None` reads the
wall clock truncated to the hour; every claim below concerns a known start
instant, which this parameter carries).  A process name missing from
`MACHINE_DATA` is skipped (`continue` after a `st.warning`); otherwise a
step is emitted at `current_time` and the cursor moves to its end. -/
def calculate_job_schedule (impressions : ℚ) (processes : List String)
    (start_time : ℚ) : List ScheduleStep :=
  match processes with
  | [] => []
  | process :: rest =>
    match MACHINE_DATA.lookup process with
    | none => calculate_job_schedule impressions rest start_time
    | some rate =>
      let duration := calculate_processing_time process impressions
      let endTime := start_time + duration
      { process := process
        start := start_time
        endTime := endTime
        duration := duration
        impressions := impressions
        run_time := impressions / rate
        setup_time := SETUP_HOURS } :: calculate_job_schedule impressions rest endTime

/-- Modelled from the spec: the Working-Time Oracle `is_working_time`
(spec §4.1) is absent from src/app.py; it is reconstructed here only to
state the shift-window claims.  With the Monday-00:00 epoch, the weekday
index `⌊t / 24⌋ % 7` maps 5 to Saturday and 6 to Sunday, and the hour of
day is `t - 24 * ⌊t / 24⌋`. -/
def is_working_time (t : ℚ) (night_shift weekend_work : Bool) : Bool :=
  let day : ℤ := ⌊t / 24⌋
  let weekday : ℤ := day % 7
  let hour : ℚ := t - 24 * (day : ℚ)
  if weekend_work = false ∧ (weekday = 5 ∨ weekday = 6) then false
  else if night_shift = false ∧ (hour < 8 ∨ 17 ≤ hour) then false
  else true

/-- The cursor discipline of `calculate_job_schedule`: a step list is
`chainedFrom t` when its first step starts exactly at `t`, each step ends
exactly `duration` after its start, and the remaining steps are chained
from that end. -/
def chainedFrom : ℚ → List ScheduleStep → Prop
  | _, [] => True
  | t, s :: rest => s.start = t ∧ s.endTime = s.start + s.duration ∧ chainedFrom s.endTime rest

/-- Every schedule produced by `calculate_job_schedule` obeys the cursor
discipline: no gap, snap or availability adjustment is ever inserted. -/
lemma schedule_chainedFrom (impressions : ℚ) :
    ∀ (processes : List String) (t : ℚ),
      chainedFrom t (calculate_job_schedule impressions processes t) := by
  intro processes
  induction processes with
  | nil => intro t; simp [calculate_job_schedule, chainedFrom]
  | cons p rest ih =>
    intro t
    rw [calculate_job_schedule]
    cases hl : MACHINE_DATA.lookup p with
    | none => exact ih t
    | some rate => exact ⟨rfl, rfl, ih _⟩

/-- In a chained list, every step starts at the base instant plus the sum
of the durations of the steps before it. -/
lemma chainedFrom_start_get :
    ∀ (l : List ScheduleStep) (t : ℚ), chainedFrom t l →
      ∀ i (h : i < l.length),
        (l.get ⟨i, h⟩).start = t + ((l.take i).map ScheduleStep.duration).sum := by
  intro l
  induction l with
  | nil => intro t _ i h; simp at h
  | cons s rest ih =>
    intro t hc i h
    obtain ⟨hs, he, hrest⟩ := hc
    cases i with
    | zero => simpa using hs
    | succ j =>
      have hj : j < rest.length := by simpa using h
      have := ih s.endTime hrest j hj
      simp only [List.get_cons_succ, List.take_succ_cons, List.map_cons, List.sum_cons]
      rw [this, he, hs]
      ring

/-- In a chained list, every step ends exactly `duration` after it starts. -/
lemma chainedFrom_endTime_get :
    ∀ (l : List ScheduleStep) (t : ℚ), chainedFrom t l →
      ∀ i (h : i < l.length),
        (l.get ⟨i, h⟩).endTime = (l.get ⟨i, h⟩).start + (l.get ⟨i, h⟩).duration := by
  intro l
  induction l with
  | nil => intro t _ i h; simp at h
  | cons s rest ih =>
    intro t hc i h
    obtain ⟨hs, he, hrest⟩ := hc
    cases i with
    | zero => simpa using he
    | succ j =>
      have hj : j < rest.length := by simpa using h
      simpa using ih s.endTime hrest j hj

/-- In a chained list, each step starts exactly at the end of its predecessor. -/
lemma chainedFrom_succ_start :
    ∀ (l : List ScheduleStep) (t : ℚ), chainedFrom t l →
      ∀ i (h : i + 1 < l.length),
        (l.get ⟨i + 1, h⟩).start = (l.get ⟨i, Nat.lt_of_succ_lt h⟩).endTime := by
  intro l
  induction l with
  | nil => intro t _ i h; simp at h
  | cons s rest ih =>
    intro t hc i h
    obtain ⟨hs, he, hrest⟩ := hc
    cases i with
    | zero =>
      cases rest with
      | nil => simp at h
      | cons s2 rest2 =>
        obtain ⟨hs2, _, _⟩ := hrest
        simpa using hs2
    | succ j =>
      have hj : j + 1 < rest.length := by simpa using h
      simpa using ih s.endTime hrest j hj

/-- A successful association-list lookup always comes from an entry of the
list. -/
lemma lookup_rate_mem :
    ∀ (l : List (String × ℚ)) (a : String) (b : ℚ),
      l.lookup a = some b → (a, b) ∈ l := by
  intro l
  induction l with
  | nil => intro a b h; simp [List.lookup] at h
  | cons p rest ih =>
    intro a b h
    obtain ⟨k, v⟩ := p
    rw [List.lookup] at h
    cases hab : (a == k) with
    | true =>
      rw [hab] at h
      have hak : a = k := eq_of_beq hab
      have hvb : v = b := by simpa using h
      rw [hak, hvb]
      exact List.mem_cons_self _ _
    | false =>
      rw [hab] at h
      exact List.mem_cons_of_mem _ (ih a b h)

/-- Every machine in the table has a positive throughput rate. -/
lemma MACHINE_DATA_rates_pos : ∀ p ∈ MACHINE_DATA, (0:ℚ) < p.2 := by
  intro p hp
  fin_cases hp <;> norm_num

/-- C1: within a job, the schedule is strictly sequential — for every
index `i`, the start instant of step `i + 1` is at least the finish
instant of step `i` (in the code they are exactly equal, since the cursor moves to
the end of each step). -/
theorem C1_steps_sequential (impressions t : ℚ) (processes : List String)
    (i : ℕ) (h : i + 1 < (calculate_job_schedule impressions processes t).length) :
    ((calculate_job_schedule impressions processes t).get
        ⟨i, Nat.lt_of_succ_lt h⟩).endTime ≤
      ((calculate_job_schedule impressions processes t).get ⟨i + 1, h⟩).start :=
  le_of_eq
    (chainedFrom_succ_start _ t (schedule_chainedFrom impressions processes t) i h).symm

/-- Witness for C1: a concrete two-step job through SM 52 twice. -/
theorem C1_steps_sequential_witness :
    ((calculate_job_schedule 7000 ["SM 52", "SM 52"] 0).get ⟨0, by decide⟩).endTime ≤
      ((calculate_job_schedule 7000 ["SM 52", "SM 52"] 0).get ⟨1, by decide⟩).start :=
  C1_steps_sequential 7000 0 ["SM 52", "SM 52"] 0 (by decide)

/-- C2 counterexample: a non-night-shift, non-weekend-work schedule whose
supplied start instant is Saturday 10:00 (t = 130 with the Monday-00:00
epoch) emits a step whose start instant is not working time — the code
applies no shift-window filtering at all. -/
theorem C2_counterexample :
    (calculate_job_schedule 1000 ["SM 52"] 130).map
        (fun s => is_working_time s.start false false) = [false] := by
  have hl : MACHINE_DATA.lookup "SM 52" = some 7000 := by decide
  simp only [calculate_job_schedule, hl, List.map_cons, List.map_nil]
  simp [is_working_time]
  norm_num

/-- C2 (amended): `calculate_job_schedule` applies no working-window
adjustment whatsoever — the start instant of every step is exactly the supplied
start instant plus the sum of the durations of the steps emitted before
it, whether or not those instants are working time. -/
theorem C2_amended_start_unfiltered (impressions t : ℚ) (processes : List String)
    (i : ℕ) (h : i < (calculate_job_schedule impressions processes t).length) :
    ((calculate_job_schedule impressions processes t).get ⟨i, h⟩).start =
      t + (((calculate_job_schedule impressions processes t).take i).map
            ScheduleStep.duration).sum :=
  chainedFrom_start_get _ t (schedule_chainedFrom impressions processes t) i h

/-- Witness for the amended C2 at a concrete two-step job started
Saturday 10:00. -/
theorem C2_amended_start_unfiltered_witness :
    ((calculate_job_schedule 1000 ["SM 52", "SM 52"] 130).get ⟨1, by decide⟩).start =
      130 + (((calculate_job_schedule 1000 ["SM 52", "SM 52"] 130).take 1).map
              ScheduleStep.duration).sum :=
  C2_amended_start_unfiltered 1000 130 ["SM 52", "SM 52"] 1 (by decide)

/-- C3 counterexample: `calculate_job_schedule` consults no booking state,
so a second job scheduled against the same snapshot (same start instant 0)
books machine SM 52 starting at instant 0, which is earlier than the first
finish instant 3 of the first identical job on that machine — the two bookings
overlap instead of being serialized. -/
theorem C3_counterexample :
    (calculate_job_schedule 7000 ["SM 52"] 0).map ScheduleStep.start = [(0:ℚ)] ∧
      (calculate_job_schedule 7000 ["SM 52"] 0).map ScheduleStep.endTime = [(3:ℚ)] ∧
      (0:ℚ) < 3 := by
  have hl : MACHINE_DATA.lookup "SM 52" = some 7000 := by decide
  refine ⟨by simp [calculate_job_schedule, hl], ?_, by norm_num⟩
  simp [calculate_job_schedule, calculate_processing_time, hl, SETUP_HOURS]
  norm_num

/-- C3 (amended): the scheduler ignores machine bookings entirely — a
step of a job on a known machine starts at the own start instant of that job, no
matter what other jobs were scheduled before it against the same state. -/
theorem C3_amended_ignores_bookings (impressions t rate : ℚ) (m : String)
    (h : MACHINE_DATA.lookup m = some rate) :
    (calculate_job_schedule impressions [m] t).map ScheduleStep.start = [t] := by
  simp [calculate_job_schedule, h]

/-- Witness for the amended C3. -/
theorem C3_amended_ignores_bookings_witness :
    (calculate_job_schedule 7000 ["SM 52"] 0).map ScheduleStep.start = [(0:ℚ)] :=
  C3_amended_ignores_bookings 7000 0 7000 "SM 52" (by decide)

/-- C4 counterexample: an unknown process name is silently skipped, and
the remaining known steps are scheduled — the job is not rejected. -/
theorem C4_counterexample :
    (calculate_job_schedule 7000 ["NO SUCH MACHINE", "SM 52"] 0).map
      ScheduleStep.process = ["SM 52"] := by
  decide

/-- C4 (amended): a process name missing from `MACHINE_DATA` is skipped
(after a UI warning) and scheduling continues with the remaining
processes; no error is raised. -/
theorem C4_amended_unknown_skipped (impressions t : ℚ) (p : String)
    (rest : List String) (h : MACHINE_DATA.lookup p = none) :
    calculate_job_schedule impressions (p :: rest) t =
      calculate_job_schedule impressions rest t := by
  rw [calculate_job_schedule, h]

/-- Witness for the amended C4. -/
theorem C4_amended_unknown_skipped_witness :
    calculate_job_schedule 7000 ["NO SUCH MACHINE", "SM 52"] 0 =
      calculate_job_schedule 7000 ["SM 52"] 0 :=
  C4_amended_unknown_skipped 7000 0 "NO SUCH MACHINE" ["SM 52"] (by decide)

/-- C5 counterexample: with the Monday-00:00 epoch, 451/4 = Friday 16:45,
453/4 = Friday 17:15 and 705/4 = the next working day (Monday) 08:15.
A single-step job starting Friday 16:45 with duration 1/2 hour (a
working-time start) finishes at Friday 17:15 — `end = start + duration`
with no non-working gap skipped — not at Monday 08:15 as the claim
requires. -/
theorem C5_counterexample :
    is_working_time (451/4) false false = true ∧
      (calculate_job_schedule (-10500) ["SM 52"] (451/4)).map
        ScheduleStep.start = [(451/4 : ℚ)] ∧
      (calculate_job_schedule (-10500) ["SM 52"] (451/4)).map
        ScheduleStep.duration = [(1/2 : ℚ)] ∧
      (calculate_job_schedule (-10500) ["SM 52"] (451/4)).map
        ScheduleStep.endTime = [(453/4 : ℚ)] ∧
      (453/4 : ℚ) ≠ 705/4 := by
  have hl : MACHINE_DATA.lookup "SM 52" = some 7000 := by decide
  refine ⟨?_, by simp [calculate_job_schedule, hl], ?_, ?_, by norm_num⟩
  · simp [is_working_time]
    norm_num
  · simp [calculate_job_schedule, calculate_processing_time, hl, SETUP_HOURS]
    norm_num
  · simp [calculate_job_schedule, calculate_processing_time, hl, SETUP_HOURS]
    norm_num

/-- C5 (amended): every step finishes exactly `duration` hours after it
starts — the code inserts no non-working gap, so a step that starts at
16:45 with a half-hour of work finishes at 17:15 the same day. -/
theorem C5_amended_no_gap (impressions t : ℚ) (processes : List String)
    (i : ℕ) (h : i < (calculate_job_schedule impressions processes t).length) :
    ((calculate_job_schedule impressions processes t).get ⟨i, h⟩).endTime =
      ((calculate_job_schedule impressions processes t).get ⟨i, h⟩).start +
        ((calculate_job_schedule impressions processes t).get ⟨i, h⟩).duration :=
  chainedFrom_endTime_get _ t (schedule_chainedFrom impressions processes t) i h

/-- Witness for the amended C5 at the Friday-16:45 input. -/
theorem C5_amended_no_gap_witness :
    ((calculate_job_schedule (-10500) ["SM 52"] (451/4)).get ⟨0, by decide⟩).endTime =
      ((calculate_job_schedule (-10500) ["SM 52"] (451/4)).get ⟨0, by decide⟩).start +
        ((calculate_job_schedule (-10500) ["SM 52"] (451/4)).get ⟨0, by decide⟩).duration :=
  C5_amended_no_gap (-10500) (451/4) ["SM 52"] 0 (by decide)

/-- C6: for every positive quantity, positive ups and non-negative overs
percentage, `calculate_impressions` returns exactly
`int(ceil(finished_qty / ups) * (1 + overs_pct / 100))`, truncated toward
zero. -/
theorem C6_impressions_formula (finished_qty ups : ℤ) (overs_pct : ℚ)
    (hq : 0 < finished_qty) (hu : 0 < ups) (ho : 0 ≤ overs_pct) :
    calculate_impressions finished_qty ups overs_pct =
      Except.ok (ratTrunc
        ((⌈(finished_qty : ℚ) / (ups : ℚ)⌉ : ℚ) * (1 + overs_pct / 100))) := by
  have h1 : ¬(ups ≤ 0 ∨ finished_qty ≤ 0) := by
    push_neg
    exact ⟨hu, hq⟩
  have h2 : ¬(overs_pct < 0) := not_lt.mpr ho
  rw [calculate_impressions, if_neg h1, if_neg h2]

/-- Witness for C6: the worked example of the spec
`impressions(100000, 12, 2) = 8500`. -/
theorem C6_impressions_formula_witness :
    calculate_impressions 100000 12 2 = Except.ok 8500 := by
  rw [C6_impressions_formula 100000 12 2 (by norm_num) (by norm_num) (by norm_num)]
  have h1 : ⌈((100000:ℤ):ℚ) / ((12:ℤ):ℚ)⌉ = (8334:ℤ) := by
    rw [Int.ceil_eq_iff]
    constructor <;> norm_num
  rw [h1]
  have h2 : ratTrunc (((8334:ℤ):ℚ) * (1 + 2 / 100)) = 8500 := by
    rw [ratTrunc, if_neg (by norm_num)]
    norm_num
  rw [h2]

/-- C7: for every machine in the table and every non-negative impressions
count, the step duration is the fixed setup time plus impressions divided
by the rate of the machine, the rate is positive, and the duration is at least
the setup time. -/
theorem C7_processing_time (machine : String) (rate impressions : ℚ)
    (h : MACHINE_DATA.lookup machine = some rate) (himp : 0 ≤ impressions) :
    calculate_processing_time machine impressions = SETUP_HOURS + impressions / rate ∧
      0 < rate ∧
      SETUP_HOURS ≤ calculate_processing_time machine impressions := by
  have heq : calculate_processing_time machine impressions
      = SETUP_HOURS + impressions / rate := by
    rw [calculate_processing_time, h]
  have hrate : 0 < rate :=
    MACHINE_DATA_rates_pos (machine, rate) (lookup_rate_mem _ _ _ h)
  refine ⟨heq, hrate, ?_⟩
  rw [heq]
  have hdiv : 0 ≤ impressions / rate := div_nonneg himp hrate.le
  linarith

/-- Witness for C7 on SM 52 with 7000 impressions. -/
theorem C7_processing_time_witness :
    calculate_processing_time "SM 52" 7000 = SETUP_HOURS + 7000 / 7000 ∧
      (0:ℚ) < 7000 ∧
      SETUP_HOURS ≤ calculate_processing_time "SM 52" 7000 :=
  C7_processing_time "SM 52" 7000 7000 (by decide) (by norm_num)

/-- C8: `calculate_impressions` rejects invalid input with an error
before any computation — the validation checks are the first two branches
of the function, so a non-positive ups or a negative overs percentage
always yields `Except.error`. -/
theorem C8_invalid_input_rejected (finished_qty ups : ℤ) (overs_pct : ℚ)
    (h : ups ≤ 0 ∨ overs_pct < 0) :
    ∃ msg, calculate_impressions finished_qty ups overs_pct = Except.error msg := by
  rw [calculate_impressions]
  by_cases h1 : ups ≤ 0 ∨ finished_qty ≤ 0
  · rw [if_pos h1]
    exact ⟨_, rfl⟩
  · rw [if_neg h1]
    have h2 : overs_pct < 0 := by
      rcases h with h | h
      · exact absurd (Or.inl h) h1
      · exact h
    rw [if_pos h2]
    exact ⟨_, rfl⟩

/-- Witness for C8: a non-positive ups and a negative overs percentage
each produce an error. -/
theorem C8_invalid_input_rejected_witness :
    (∃ msg, calculate_impressions 100 (-3) 5 = Except.error msg) ∧
      ∃ msg, calculate_impressions 100 12 (-1) = Except.error msg :=
  ⟨C8_invalid_input_rejected 100 (-3) 5 (Or.inl (by norm_num)),
   C8_invalid_input_rejected 100 12 (-1) (Or.inr (by norm_num))⟩

/-- C9: scheduling is deterministic — two calls of
`calculate_job_schedule` with identical impressions, identical process
lists and identical explicitly supplied start instants return identical
step lists. -/
theorem C9_deterministic (imps1 imps2 t1 t2 : ℚ) (procs1 procs2 : List String)
    (hi : imps1 = imps2) (hp : procs1 = procs2) (ht : t1 = t2) :
    calculate_job_schedule imps1 procs1 t1 = calculate_job_schedule imps2 procs2 t2 := by
  rw [hi, hp, ht]

/-- Witness for C9 at a concrete job. -/
theorem C9_deterministic_witness :
    calculate_job_schedule 8500 ["SM 52"] 130 = calculate_job_schedule 8500 ["SM 52"] 130 :=
  C9_deterministic 8500 8500 130 130 ["SM 52"] ["SM 52"] rfl rfl rfl

/-- C10: for a machine name not in the table, `calculate_processing_time`
returns 0 instead of raising an error. -/
theorem C10_unknown_machine_zero (machine : String) (impressions : ℚ)
    (h : MACHINE_DATA.lookup machine = none) :
    calculate_processing_time machine impressions = 0 := by
  rw [calculate_processing_time, h]

/-- Witness for C10. -/
theorem C10_unknown_machine_zero_witness :
    calculate_processing_time "NO SUCH MACHINE" 5000 = 0 :=
  C10_unknown_machine_zero "NO SUCH MACHINE" 5000 (by decide)

end AppointedTime
